import Mathlib

/-!
A shallow embedding of the enrollment-progress / quiz-grading core of the
E-Learning platform (`models.py`, `app.py`).

Modelling conventions:
* Database rows are records in lists held by a `Store`; SQLAlchemy queries
  become list `filter` / `find?` / `countP` over those lists.
* `datetime.utcnow()` becomes an explicit `now : Nat` timestamp parameter.
* Python floats are modelled as exact rationals `ℚ`; every numeric fact
  proved below (equality with 0, 100, 7.5, inequality with 100, ≥ 7)
  is either exact in binary floating point as well or robust to rounding.
* Routes that abort with a redirect / 404 / uncaught exception return
  `Except`; the store is unchanged in the error case, matching the fact
  that the Python code raises before `db.session.commit()`.
-/

set_option autoImplicit false

namespace ELearning

/-- Row of `quiz_questions` (`models.py`, class `QuizQuestion`). -/
structure QuizQuestion where
  id : Nat
  questionText : String
  contentItemId : Nat
  questionType : String
  correctAnswer : Option String
  options : Option String
  deriving Repr, DecidableEq

/-- Row of `content_items` (`models.py`, class `ContentItem`). -/
structure ContentItem where
  id : Nat
  title : String
  type : String
  content : Option String
  filePath : Option String
  order : Nat
  moduleId : Nat
  deriving Repr, DecidableEq

/-- Row of `modules` (`models.py`, class `Module`). -/
structure Module where
  id : Nat
  title : String
  description : String
  order : Nat
  courseId : Nat
  deriving Repr, DecidableEq

/-- Row of `courses` (`models.py`, class `Course`). -/
structure Course where
  id : Nat
  name : String
  description : String
  instructorId : Nat
  deriving Repr, DecidableEq

/-- Row of `course_enrollments` (`models.py`, class `CourseEnrollment`). -/
structure CourseEnrollment where
  id : Nat
  studentId : Nat
  courseId : Nat
  enrollmentDate : Nat
  completed : Bool
  progress : ℚ
  completionDate : Option Nat
  deriving Repr, DecidableEq

/-- Row of `student_responses` (`models.py`, class `StudentResponse`). -/
structure StudentResponse where
  id : Nat
  studentId : Nat
  contentItemId : Nat
  response : String
  score : Option ℚ
  completed : Bool
  completionDate : Option Nat
  deriving Repr, DecidableEq

/-- The persistent store: one list per table. -/
structure Store where
  courses : List Course
  modules : List Module
  contentItems : List ContentItem
  questions : List QuizQuestion
  enrollments : List CourseEnrollment
  responses : List StudentResponse
  deriving Repr, DecidableEq

/-- Relationship `course.modules`: the ORM relationship `Module.course_id == course.id`. -/
def Store.courseModules (s : Store) (courseId : Nat) : List Module :=
  s.modules.filter (fun m => m.courseId == courseId)

/-- Relationship `module.content_items`: the ORM relationship `ContentItem.module_id == module.id`. -/
def Store.moduleContentItems (s : Store) (moduleId : Nat) : List ContentItem :=
  s.contentItems.filter (fun c => c.moduleId == moduleId)

/-- Relationship `quiz.questions`: the ORM relationship `QuizQuestion.content_item_id == quiz.id`. -/
def Store.quizQuestions (s : Store) (contentItemId : Nat) : List QuizQuestion :=
  s.questions.filter (fun q => q.contentItemId == contentItemId)

/-- From `models.py:140`: `total_content = sum(len(module.content_items) for module in self.course.modules)`. -/
def Store.totalContent (s : Store) (courseId : Nat) : Nat :=
  ((s.courseModules courseId).map (fun m => (s.moduleContentItems m.id).length)).sum

/-- From `models.py:142`: the list comprehension
`[content.id for module in self.course.modules for content in module.content_items]`. -/
def Store.courseContentIds (s : Store) (courseId : Nat) : List Nat :=
  (s.courseModules courseId).flatMap (fun m => (s.moduleContentItems m.id).map (fun c => c.id))

/-- From `models.py:141-143`: the `completed_content` query of `update_progress` —
`StudentResponse.query.filter_by(student_id=..., completed=True)
  .filter(StudentResponse.content_item_id.in_(course content ids)).count()`.
Note: `.count()` counts response ROWS, with no `DISTINCT` on `content_item_id`. -/
def Store.completedContent (s : Store) (studentId courseId : Nat) : Nat :=
  (s.responses.filter (fun r =>
    r.studentId == studentId && r.completed &&
      (s.courseContentIds courseId).contains r.contentItemId)).length

/-- From `models.py:144`: `self.progress = (completed_content / total_content) * 100 if total_content > 0 else 0`. -/
def Store.progressOf (s : Store) (studentId courseId : Nat) : ℚ :=
  let total := s.totalContent courseId
  if total > 0 then ((s.completedContent studentId courseId : ℚ) / (total : ℚ)) * 100 else 0

/-- From `models.py:139-148`, `CourseEnrollment.update_progress`, effect on the
enrollment row itself: recompute `progress`; when it equals 100 set
`completed = True` and stamp `completion_date = datetime.utcnow()`.
There is no `else` branch: `completed` and `completion_date` are left
untouched when the recomputed progress is below 100. -/
def updateProgressEnr (s : Store) (now : Nat) (e : CourseEnrollment) : CourseEnrollment :=
  let progress := s.progressOf e.studentId e.courseId
  if progress == 100 then
    { e with progress := progress, completed := true, completionDate := some now }
  else
    { e with progress := progress }

/-- The enrollment table after the row with the found primary key has been
recomputed and committed. -/
def updMap (s : Store) (now : Nat) (e₀ : CourseEnrollment) : List CourseEnrollment :=
  s.enrollments.map (fun e => if e.id == e₀.id then updateProgressEnr s now e else e)

/-- The callers of `update_progress` (`app.py:1081-1085`, `models.py:177-181`)
locate the enrollment with
`CourseEnrollment.query.filter_by(student_id=..., course_id=...).first()` and,
only `if enrollment:`, run `update_progress`; the commit persists the mutated
row (identified by its primary key). -/
def Store.updateProgress (s : Store) (now studentId courseId : Nat) : Store :=
  match s.enrollments.find? (fun e => e.studentId == studentId && e.courseId == courseId) with
  | none => s
  | some e₀ => { s with enrollments := updMap s now e₀ }

/-- Python `str(x)` applied to a nullable text column: `str(None) = "None"`. -/
def pyStr : Option String → String
  | some t => t
  | none => "None"

/-- Python `str.strip()` with no argument: drop leading and trailing
whitespace. (Defined over the character list rather than with
`String.trim` so that it evaluates inside the kernel.) -/
def pyStrip (t : String) : String :=
  ⟨((t.data.dropWhile Char.isWhitespace).reverse.dropWhile Char.isWhitespace).reverse⟩

/-- Python `str.lower()`, restricted to ASCII (every string compared in this
development is ASCII). -/
def pyLowerChar (c : Char) : Char :=
  if c.toNat ≥ 65 && c.toNat ≤ 90 then Char.ofNat (c.toNat + 32) else c

/-- Python `str.lower()` on a whole string. -/
def pyLower (t : String) : String :=
  ⟨t.data.map pyLowerChar⟩

/-- The normalization both sides of the comparison undergo:
`.strip().lower()`. -/
def pyNormalize (t : String) : String :=
  pyLower (pyStrip t)

/-- From `models.py:124-125`, `QuizQuestion.is_answer_correct`:
`str(self.correct_answer).strip().lower() == str(user_answer).strip().lower()`. -/
def QuizQuestion.isAnswerCorrect (q : QuizQuestion) (userAnswer : String) : Bool :=
  pyNormalize (pyStr q.correctAnswer) == pyNormalize userAnswer

/-- From `app.py:1059-1063`, the grading loop of `take_quiz`: a question earns a
point iff the form holds an answer for it, the answer is truthy (a non-empty
string), and `is_answer_correct` accepts it
(`if student_answer and question.is_answer_correct(student_answer)`). -/
def gradeCount (questions : List QuizQuestion) (answers : Nat → Option String) : Nat :=
  questions.countP (fun q =>
    match answers q.id with
    | some a => a != "" && q.isAnswerCorrect a
    | none => false)

/-- Outcome of a `take_quiz` POST that does not raise. -/
inductive QuizOutcome where
  /-- Redirect with the "already scored ≥ 7" flash; nothing written. -/
  | blocked
  /-- Submission graded with the given score; response row written. -/
  | graded (score : ℚ)
  deriving Repr, DecidableEq

/-- Ways a `take_quiz` request aborts without committing. -/
inductive QuizError where
  /-- Lookup `get_or_404` missed, or `quiz.module` does not exist (AttributeError). -/
  | notFound
  /-- Check `quiz.type != 'quiz'`: redirect away before any quiz logic. -/
  | notAQuiz
  /-- Computing `score = (correct_answers / total_questions) * 10` with
  `total_questions == 0`: uncaught `ZeroDivisionError`, request dies,
  session never commits. -/
  | zeroDivision
  deriving Repr, DecidableEq

/-- From `app.py:1045-1049`: the block-check query of `take_quiz` —
`StudentResponse.query.filter_by(student_id=..., content_item_id=quiz_id)
  .filter(StudentResponse.score >= 7).first()` is truthy.
In SQL a `NULL` score never satisfies `score >= 7`. -/
def Store.hasPassingResponse (s : Store) (studentId quizId : Nat) : Bool :=
  s.responses.any (fun r =>
    r.studentId == studentId && r.contentItemId == quizId &&
      (match r.score with | some sc => decide (sc ≥ 7) | none => false))

/-- From `app.py:1066`: `score = (correct_answers / total_questions) * 10`. -/
def Store.quizScore (s : Store) (quizId : Nat) (answers : Nat → Option String) : ℚ :=
  ((gradeCount (s.quizQuestions quizId) answers : ℚ) /
    ((s.quizQuestions quizId).length : ℚ)) * 10

/-- From `app.py:1070-1077`: the `StudentResponse` written for a graded submission —
`completed=True`, `completion_date=datetime.utcnow()`, the score, and the
serialized form. -/
def gradedResponse (respId studentId quizId : Nat) (rawForm : String)
    (score : ℚ) (now : Nat) : StudentResponse :=
  { id := respId, studentId := studentId, contentItemId := quizId,
    response := rawForm, score := some score, completed := true,
    completionDate := some now }

/-- From `app.py:1035-1097`, the POST path of `take_quiz`:
1. `ContentItem.query.get_or_404(quiz_id)`; redirect unless `type == 'quiz'`;
2. block when a prior `StudentResponse` for `(student, quiz)` has `score >= 7`
   (`app.py:1045-1053`), before grading, with nothing written;
3. grade: `total_questions = len(quiz.questions)`, count correct answers,
   `score = (correct_answers / total_questions) * 10` — an uncaught
   `ZeroDivisionError` when the quiz has no questions;
4. add a `StudentResponse` with `completed=True`,
   `completion_date=datetime.utcnow()` and the serialized form;
5. look up the enrollment for `(student, quiz.module.course.id)` — the
   attribute access dies when the module row is missing — and, when it
   exists, run `update_progress` (the added response is visible to its query
   via session autoflush); commit. -/
def Store.takeQuiz (s : Store) (now studentId quizId respId : Nat)
    (answers : Nat → Option String) (rawForm : String) :
    Except QuizError (QuizOutcome × Store) :=
  match s.contentItems.find? (fun c => c.id == quizId) with
  | none => .error .notFound
  | some quiz =>
    if quiz.type != "quiz" then .error .notAQuiz
    else if s.hasPassingResponse studentId quizId then .ok (.blocked, s)
    else if (s.quizQuestions quizId).length == 0 then .error .zeroDivision
    else
      let score := s.quizScore quizId answers
      let s₁ : Store :=
        { s with responses :=
            s.responses ++ [gradedResponse respId studentId quizId rawForm score now] }
      match s.modules.find? (fun m => m.id == quiz.moduleId) with
      | none => .error .notFound
      | some md => .ok (.graded score, s₁.updateProgress now studentId md.courseId)

/-- Route `enroll_course` aborts only via `get_or_404` on the course. -/
inductive EnrollError where
  | notFound
  deriving Repr, DecidableEq

/-- The row inserted by `enroll_course` (`app.py:1110-1114` with the column
defaults of `models.py:128-137`): `completed=False`, `progress=0.0`,
`completion_date=NULL`, `enrollment_date=datetime.utcnow()`. -/
def newEnrollment (now studentId courseId enrId : Nat) : CourseEnrollment :=
  { id := enrId, studentId := studentId, courseId := courseId,
    enrollmentDate := now, completed := false, progress := 0,
    completionDate := none }

/-- From `app.py:1099-1119`, `enroll_course`: `Course.query.get_or_404(course_id)`;
if an enrollment for `(student, course)` already exists, flash a warning and
do nothing (`created = false`); otherwise insert a new `CourseEnrollment`. -/
def Store.enrollCourse (s : Store) (now studentId courseId enrId : Nat) :
    Except EnrollError (Bool × Store) :=
  match s.courses.find? (fun c => c.id == courseId) with
  | none => .error .notFound
  | some _ =>
    match s.enrollments.find? (fun e =>
        e.studentId == studentId && e.courseId == courseId) with
    | some _ => .ok (false, s)
    | none =>
        .ok (true, { s with enrollments :=
          s.enrollments ++ [newEnrollment now studentId courseId enrId] })

/-- Ways `delete_content` aborts without deleting anything. -/
inductive DeleteError where
  /-- Lookup `get_or_404` on the content item missed. -/
  | notFound
  /-- The ORM's default nullify cascade on the `ContentItem.responses`
  backref (`models.py:160`, no `passive_deletes`) issues
  `UPDATE student_responses SET content_item_id=NULL` for every response of
  the deleted item, violating the `nullable=False` constraint
  (`models.py:155`); the uncaught `IntegrityError` rolls the transaction
  back, so nothing is deleted. (The schema-level `ondelete="CASCADE"` never
  fires: the app runs on SQLite with foreign keys unenforced, `config.py`.) -/
  | integrityError
  deriving Repr, DecidableEq

/-- From `app.py:698-712`, `delete_content`:
`ContentItem.query.get_or_404(content_id)`, then `db.session.delete(content_item)`
and commit. When any `StudentResponse` references the item, the commit dies
with an `IntegrityError` (see `DeleteError.integrityError`) and the store is
unchanged. Otherwise the row is deleted together with its `QuizQuestion`
children (ORM cascade `'all, delete-orphan'` on `ContentItem.questions`);
responses are untouched (none reference the item), no enrollment is touched
and no progress is recomputed. -/
def Store.deleteContent (s : Store) (contentId : Nat) : Except DeleteError Store :=
  match s.contentItems.find? (fun c => c.id == contentId) with
  | none => .error .notFound
  | some _ =>
    if s.responses.any (fun r => r.contentItemId == contentId) then
      .error .integrityError
    else
      .ok { s with
        contentItems := s.contentItems.filter (fun c => c.id != contentId),
        questions := s.questions.filter (fun q => q.contentItemId != contentId) }

/-- Route `new_content` aborts via `get_or_404` on the module or via the
title/type validation redirect. -/
inductive AddContentError where
  | notFound
  | validation
  deriving Repr, DecidableEq

/-- From `app.py:628-674`, the POST path of `new_content`: module `get_or_404`;
title and content type are mandatory; the new item's `order` is
`max([c.order for c in module.content_items], default=0) + 1`; the row is
inserted and committed. No recomputation of any enrollment happens. -/
def Store.addContent (s : Store) (moduleId itemId : Nat) (title ctype : String)
    (content filePath : Option String) : Except AddContentError Store :=
  match s.modules.find? (fun m => m.id == moduleId) with
  | none => .error .notFound
  | some _ =>
  if title == "" || ctype == "" then .error .validation
  else
    let lastOrder := ((s.moduleContentItems moduleId).map (fun c => c.order)).foldl max 0
    .ok { s with contentItems := s.contentItems ++
      [{ id := itemId, title := title, type := ctype, content := content,
         filePath := filePath, order := lastOrder + 1, moduleId := moduleId }] }

/-- From `app.py:1144-1158`, the module-level backfill loop run at import time,
effect on one enrollment: `total_content` as in `update_progress`, but
`completed_content = StudentResponse.query.filter_by(student_id=...,
completed=True).count()` — every completed response of the student, NOT
restricted to this course's content items; then
`progress == 100` sets `completed = True` and stamps the date, and the
`else` branch sets `completed = False` and clears `completion_date`.
This definition is the progress value the loop computes for one enrollment. -/
def backfillProgress (s : Store) (e : CourseEnrollment) : ℚ :=
  let total := s.totalContent e.courseId
  let comp := (s.responses.filter (fun r =>
    r.studentId == e.studentId && r.completed)).length
  if total > 0 then ((comp : ℚ) / (total : ℚ)) * 100 else 0

/-- From `app.py:1150-1158`: the branch of the backfill loop that writes the
enrollment: promote to completed at 100, demote (and clear the date)
otherwise. -/
def backfillEnr (s : Store) (now : Nat) (e : CourseEnrollment) : CourseEnrollment :=
  let progress := backfillProgress s e
  if progress == 100 then
    { e with progress := progress, completed := true, completionDate := some now }
  else
    { e with progress := progress, completed := false, completionDate := none }

/-! ### Spec-side definitions used for comparison

These two definitions follow the wording of the specification (not the
source); they exist only to be compared against the source-derived
definitions above. -/

/-- The spec's description of `completed_content`: "count of StudentResponse
rows for this student with `completed = True` whose content-item id is among
the course's content-item ids (deduplicated by content-item id, not by
response row — a content item counts once even with multiple completed
responses)": the number of distinct course content-item ids having at least
one completed response by the student. -/
def specCompletedContentDedup (s : Store) (studentId courseId : Nat) : Nat :=
  ((s.courseContentIds courseId).dedup.filter (fun cid =>
    s.responses.any (fun r =>
      r.studentId == studentId && r.completed && r.contentItemId == cid))).length

/-- The spec's description of a correct answer: "compare the submitted answer
to `correct_answer` using a normalized equality test — trim surrounding
whitespace, case-fold, then compare as strings". Counts the questions whose
submitted answer matches under that normalization alone. -/
def specNormalizedMatchCount (questions : List QuizQuestion)
    (answers : Nat → Option String) : Nat :=
  questions.countP (fun q =>
    match answers q.id with
    | some a => pyNormalize (pyStr q.correctAnswer) == pyNormalize a
    | none => false)

/-- The number of `CourseEnrollment` rows for a (student, course) pair —
the quantity the uniqueness scenario of the spec is about. -/
def enrollmentCountFor (s : Store) (studentId courseId : Nat) : Nat :=
  (s.enrollments.filter (fun e =>
    e.studentId == studentId && e.courseId == courseId)).length

/-! ### Concrete stores

One course (id 1) of one module (id 1), used to exercise the operations on
explicit inputs. Every store below (except the bases `exS0`, `exT0`, `exZ0`,
`exC7`) is the literal result of running an embedded operation on its
predecessor; the step lemmas in the theorem section prove those equations,
so each store is reachable through the application's own routes. -/

/-- Base store: one course, one module, one quiz content item (id 1) with a
single short-answer question whose correct answer is `"a"`; student id 2 is
not yet enrolled. -/
def exS0 : Store :=
  { courses := [{ id := 1, name := "c", description := "d", instructorId := 1 }],
    modules := [{ id := 1, title := "m", description := "d", order := 1, courseId := 1 }],
    contentItems := [{ id := 1, title := "q", type := "quiz", content := none,
                       filePath := none, order := 1, moduleId := 1 }],
    questions := [{ id := 1, questionText := "?", contentItemId := 1,
                    questionType := "short_answer", correctAnswer := some "a",
                    options := none }],
    enrollments := [], responses := [] }

/-- A form that answers `"b"` to every question — always wrong for `exS0`. -/
def exWrong : Nat → Option String := fun _ => some "b"

/-- Student 2's fresh enrollment in course 1 (column defaults). -/
def exEnr0 : CourseEnrollment :=
  { id := 1, studentId := 2, courseId := 1, enrollmentDate := 0,
    completed := false, progress := 0, completionDate := none }

/-- Student 2 enrolled in course 1: `exS0.enrollCourse 0 2 1 1`. -/
def exS1 : Store := { exS0 with enrollments := [exEnr0] }

/-- The completed response row written by the first failed submission. -/
def exResp1 : StudentResponse :=
  { id := 1, studentId := 2, contentItemId := 1, response := "f1",
    score := some 0, completed := true, completionDate := some 10 }

/-- After student 2 fails the quiz (score 0) at time 10:
`exS1.takeQuiz 10 2 1 1 exWrong "f1"`. The completed response makes
`update_progress` compute `progress = 100` (1 completed row / 1 item), so the
enrollment is marked completed with the date stamped. -/
def exS2 : Store :=
  { exS0 with
    enrollments :=
      [{ exEnr0 with progress := 100, completed := true, completionDate := some 10 }],
    responses := [exResp1] }

/-- The second completed response row (same student, same content item). -/
def exResp2 : StudentResponse :=
  { id := 2, studentId := 2, contentItemId := 1, response := "f2",
    score := some 0, completed := true, completionDate := some 20 }

/-- After student 2 fails the quiz again (score 0 < 7, so not blocked) at
time 20: `exS2.takeQuiz 20 2 1 2 exWrong "f2"`. Two completed rows over one
content item make `update_progress` store `progress = 200`; 200 ≠ 100 keeps
`completed`/`completion_date` from the previous state. -/
def exS3 : Store :=
  { exS0 with
    enrollments :=
      [{ exEnr0 with progress := 200, completed := true, completionDate := some 10 }],
    responses := [exResp1, exResp2] }

/-- Text content item of id `i` and order `o` in module 1. -/
def exTextItem (i o : Nat) : ContentItem :=
  { id := i, title := "t", type := "text", content := some "x",
    filePath := none, order := o, moduleId := 1 }

/-- After `exS2`, the instructor adds a text content item (id 2):
`exS2.addContent 1 2 "t" "text" (some "x") none`. No recomputation happens
on content creation. -/
def exS2b : Store := { exS2 with contentItems := exS2.contentItems ++ [exTextItem 2 2] }

/-- A second added text item (id 3): `exS2b.addContent 1 3 "t" "text" (some "x") none`. -/
def exS2c : Store := { exS2b with contentItems := exS2b.contentItems ++ [exTextItem 3 3] }

/-- Student 2 retakes the quiz after the course grew to 3 content items:
`exS2c.takeQuiz 20 2 1 2 exWrong "f2"`. `update_progress` recomputes
`progress = 200/3` but `completed` stays `True` and `completion_date` keeps
its old stamp. -/
def exS3c : Store :=
  { exS2c with
    enrollments :=
      [{ exEnr0 with progress := 200/3, completed := true, completionDate := some 10 }],
    responses := [exResp1, exResp2] }

/-- Store `exS0` with a second content item (id 2, text) in module 1. -/
def exT0 : Store :=
  { exS0 with contentItems := exS0.contentItems ++ [exTextItem 2 2] }

/-- Student 2 enrolled in the two-item course: `exT0.enrollCourse 0 2 1 1`. -/
def exT1 : Store := { exT0 with enrollments := [exEnr0] }

/-- Student 2 fails the quiz: `exT1.takeQuiz 10 2 1 1 exWrong "f1"`;
1 of 2 items completed, `progress = 50`. -/
def exT2 : Store :=
  { exT0 with
    enrollments := [{ exEnr0 with progress := 50 }],
    responses := [exResp1] }

/-- The instructor deletes content item 2: `exT2.deleteContent 2`. No
response references item 2 (the only response is for the quiz, item 1), so
the deletion succeeds; the denominator drops to 1 but no enrollment is
recomputed. -/
def exT3 : Store :=
  { exT2 with contentItems := exS0.contentItems }

/-- Store `exS0` with the question list emptied (reachable through `edit_quiz`,
which deletes every question not resubmitted with the form). -/
def exZ0 : Store := { exS0 with questions := [] }

/-- Student 2 enrolled in the zero-question-quiz course:
`exZ0.enrollCourse 0 2 1 1`. -/
def exZ1 : Store := { exZ0 with enrollments := [exEnr0] }

/-- Student 2 passes the quiz of `exS1` with `" A "` (trim + case-fold
match, score 10): `exS1.takeQuiz 10 2 1 1 (fun _ => some " A ") "fp"`.
Later submissions are blocked. -/
def exP2 : Store :=
  { exS0 with
    enrollments :=
      [{ exEnr0 with progress := 100, completed := true, completionDate := some 10 }],
    responses :=
      [{ id := 1, studentId := 2, contentItemId := 1, response := "fp",
         score := some 10, completed := true, completionDate := some 10 }] }

/-- Four short-answer questions for the grading counterexample: the correct
answers are `" "`, `"A"`, `"b"`, `"c"`. -/
def exC7Qs : List QuizQuestion :=
  [{ id := 1, questionText := "?", contentItemId := 1, questionType := "short_answer",
     correctAnswer := some " ", options := none },
   { id := 2, questionText := "?", contentItemId := 1, questionType := "short_answer",
     correctAnswer := some "A", options := none },
   { id := 3, questionText := "?", contentItemId := 1, questionType := "short_answer",
     correctAnswer := some "b", options := none },
   { id := 4, questionText := "?", contentItemId := 1, questionType := "short_answer",
     correctAnswer := some "c", options := none }]

/-- Submitted answers: `""` for question 1 (normalized-equal to `" "` but
falsy in Python), `"a "` and `"B"` for questions 2 and 3 (normalized
matches), `"x"` for question 4 (wrong). -/
def exC7Ans : Nat → Option String
  | 1 => some ""
  | 2 => some "a "
  | 3 => some "B"
  | 4 => some "x"
  | _ => none

/-- Store `exS0` with the quiz carrying the four questions of `exC7Qs` and no
enrollment. -/
def exC7 : Store := { exS0 with questions := exC7Qs }

/-- The store after grading `exC7Ans` on `exC7`:
`exC7.takeQuiz 10 2 1 1 exC7Ans "f"`. Only 2 of the 3 normalized matches are
counted (the empty answer is falsy), so the stored score is `(2/4)*10 = 5`;
there is no enrollment to update. -/
def exC7Post : Store :=
  { exC7 with responses :=
      [{ id := 1, studentId := 2, contentItemId := 1, response := "f",
         score := some 5, completed := true, completionDate := some 10 }] }

/-- Four non-empty answers matching 3 of the 4 questions of `exC7Qs`. -/
def exC7GoodAns : Nat → Option String
  | 1 => some "nope"
  | 2 => some "a "
  | 3 => some "B"
  | 4 => some " C"
  | _ => none

/-! ## Step lemmas

Each lemma proves that one example store is the result of one embedded
operation on its predecessor, so every example store is reachable. -/

theorem exS1_step : exS0.enrollCourse 0 2 1 1 = .ok (true, exS1) := by
  simp +decide [exS0, exS1, exEnr0, newEnrollment, Store.enrollCourse]

theorem exS2_step : exS1.takeQuiz 10 2 1 1 exWrong "f1" = .ok (.graded 0, exS2) := by
  simp +decide [exS0, exS1, exS2, exEnr0, exResp1, exWrong, Store.takeQuiz,
    Store.hasPassingResponse, Store.quizScore, Store.quizQuestions, gradeCount,
    gradedResponse, Store.updateProgress, updMap, updateProgressEnr, Store.progressOf,
    Store.totalContent, Store.completedContent, Store.courseContentIds,
    Store.courseModules, Store.moduleContentItems, QuizQuestion.isAnswerCorrect,
    pyNormalize, pyStr, pyLower, pyStrip, pyLowerChar]

theorem exS3_step : exS2.takeQuiz 20 2 1 2 exWrong "f2" = .ok (.graded 0, exS3) := by
  simp +decide [exS0, exS2, exS3, exEnr0, exResp1, exResp2, exWrong, Store.takeQuiz,
    Store.hasPassingResponse, Store.quizScore, Store.quizQuestions, gradeCount,
    gradedResponse, Store.updateProgress, updMap, updateProgressEnr, Store.progressOf,
    Store.totalContent, Store.completedContent, Store.courseContentIds,
    Store.courseModules, Store.moduleContentItems, QuizQuestion.isAnswerCorrect,
    pyNormalize, pyStr, pyLower, pyStrip, pyLowerChar]
  norm_num

theorem exS2b_step : exS2.addContent 1 2 "t" "text" (some "x") none = .ok exS2b := by
  simp +decide [exS0, exS2, exS2b, exEnr0, exResp1, exTextItem, Store.addContent,
    Store.moduleContentItems]

theorem exS2c_step : exS2b.addContent 1 3 "t" "text" (some "x") none = .ok exS2c := by
  simp +decide [exS0, exS2, exS2b, exS2c, exEnr0, exResp1, exTextItem, Store.addContent,
    Store.moduleContentItems]

theorem exS3c_step : exS2c.takeQuiz 20 2 1 2 exWrong "f2" = .ok (.graded 0, exS3c) := by
  simp +decide [exS0, exS2, exS2b, exS2c, exS3c, exEnr0, exResp1, exResp2, exTextItem,
    exWrong, Store.takeQuiz, Store.hasPassingResponse, Store.quizScore,
    Store.quizQuestions, gradeCount, gradedResponse, Store.updateProgress, updMap,
    updateProgressEnr, Store.progressOf, Store.totalContent, Store.completedContent,
    Store.courseContentIds, Store.courseModules, Store.moduleContentItems,
    QuizQuestion.isAnswerCorrect, pyNormalize, pyStr, pyLower, pyStrip, pyLowerChar]
  norm_num

theorem exT1_step : exT0.enrollCourse 0 2 1 1 = .ok (true, exT1) := by
  simp +decide [exS0, exT0, exT1, exEnr0, exTextItem, newEnrollment, Store.enrollCourse]

theorem exT2_step : exT1.takeQuiz 10 2 1 1 exWrong "f1" = .ok (.graded 0, exT2) := by
  simp +decide [exS0, exT0, exT1, exT2, exEnr0, exResp1, exTextItem, exWrong,
    Store.takeQuiz, Store.hasPassingResponse, Store.quizScore, Store.quizQuestions,
    gradeCount, gradedResponse, Store.updateProgress, updMap, updateProgressEnr,
    Store.progressOf, Store.totalContent, Store.completedContent,
    Store.courseContentIds, Store.courseModules, Store.moduleContentItems,
    QuizQuestion.isAnswerCorrect, pyNormalize, pyStr, pyLower, pyStrip, pyLowerChar]
  norm_num

theorem exT3_step : exT2.deleteContent 2 = .ok exT3 := by
  simp +decide [exS0, exT0, exT2, exT3, exEnr0, exResp1, exTextItem, Store.deleteContent]

theorem exZ1_step : exZ0.enrollCourse 0 2 1 1 = .ok (true, exZ1) := by
  simp +decide [exS0, exZ0, exZ1, exEnr0, newEnrollment, Store.enrollCourse]

theorem exP2_step : exS1.takeQuiz 10 2 1 1 (fun _ => some " A ") "fp" = .ok (.graded 10, exP2) := by
  simp +decide [exS0, exS1, exP2, exEnr0, Store.takeQuiz,
    Store.hasPassingResponse, Store.quizScore, Store.quizQuestions, gradeCount,
    gradedResponse, Store.updateProgress, updMap, updateProgressEnr, Store.progressOf,
    Store.totalContent, Store.completedContent, Store.courseContentIds,
    Store.courseModules, Store.moduleContentItems, QuizQuestion.isAnswerCorrect,
    pyNormalize, pyStr, pyLower, pyStrip, pyLowerChar]

theorem exC7_step : exC7.takeQuiz 10 2 1 1 exC7Ans "f" = .ok (.graded 5, exC7Post) := by
  simp +decide [exS0, exC7, exC7Qs, exC7Ans, exC7Post, Store.takeQuiz,
    Store.hasPassingResponse, Store.quizScore, Store.quizQuestions, gradeCount,
    gradedResponse, Store.updateProgress, updMap, updateProgressEnr, Store.progressOf,
    Store.totalContent, Store.completedContent, Store.courseContentIds,
    Store.courseModules, Store.moduleContentItems, QuizQuestion.isAnswerCorrect,
    pyNormalize, pyStr, pyLower, pyStrip, pyLowerChar]
  norm_num

/-! ## Shared helper lemmas -/

/-- The count `completed_content` only depends on the responses, modules and content
items of the store. -/
theorem completedContent_ext (s₁ s₂ : Store) (st c : Nat)
    (hr : s₁.responses = s₂.responses) (hm : s₁.modules = s₂.modules)
    (hc : s₁.contentItems = s₂.contentItems) :
    s₁.completedContent st c = s₂.completedContent st c := by
  unfold Store.completedContent Store.courseContentIds Store.courseModules
    Store.moduleContentItems
  rw [hr, hm, hc]

/-- Appending one completed response of the student for a content item of the
course increases `completed_content` by exactly one. -/
theorem completedContent_append (s : Store) (st c : Nat) (r : StudentResponse)
    (hst : r.studentId = st) (hcomp : r.completed = true)
    (hmem : r.contentItemId ∈ s.courseContentIds c) :
    Store.completedContent { s with responses := s.responses ++ [r] } st c
      = s.completedContent st c + 1 := by
  simp only [Store.completedContent, Store.courseContentIds, Store.courseModules,
    Store.moduleContentItems] at hmem ⊢
  rw [List.filter_append, List.length_append]
  simp [hst, hcomp, hmem]

/-! ## C1 -/

/-- C1, counterexample: in the reachable store `exS3` (see `exS3_step`) the
student has two completed response rows for the single content item of
course 1, and `update_progress`'s `completed_content` query counts 2, not the
deduplicated 1 the claim asserts. -/
theorem completedContent_not_dedup_counterexample :
    exS3.completedContent 2 1 = 2 ∧ specCompletedContentDedup exS3 2 1 = 1 ∧
      (2 : Nat) ≠ 1 := by
  refine ⟨?_, ?_, by decide⟩ <;>
    simp +decide [exS0, exS3, exEnr0, exResp1, exResp2, Store.completedContent,
      specCompletedContentDedup, Store.courseContentIds, Store.courseModules,
      Store.moduleContentItems]

/-- C1, amended: the `completed_content` query counts completed response ROWS:
every completed response row of the student whose content item belongs to the
course contributes exactly 1, even when another completed row for the same
(student, content item) pair already exists. -/
theorem completedContent_counts_rows (s : Store) (st c : Nat) (r : StudentResponse)
    (hst : r.studentId = st) (hcomp : r.completed = true)
    (hmem : r.contentItemId ∈ s.courseContentIds c) :
    Store.completedContent { s with responses := s.responses ++ [r] } st c
      = s.completedContent st c + 1 :=
  completedContent_append s st c r hst hcomp hmem

/-- C1 witness: adding the second completed response row for content item 1
to `exS2` raises `completed_content` from 1 to 2. -/
theorem completedContent_counts_rows_witness :
    Store.completedContent { exS2 with responses := exS2.responses ++ [exResp2] } 2 1
      = exS2.completedContent 2 1 + 1 :=
  completedContent_counts_rows exS2 2 1 exResp2 rfl rfl (by decide)

/-! ## C3 -/

/-- C3, counterexample: deleting content item 2 from the reachable store
`exT2` (see `exT2_step`) leaves the enrollment's stored progress at 50 even
though recomputation over the shrunk course would give 100 — no recomputation
happened. -/
theorem deleteContent_stale_progress_counterexample :
    exT2.deleteContent 2 = .ok exT3 ∧
    exT3.enrollments.map CourseEnrollment.progress = [50] ∧
    exT3.progressOf 2 1 = 100 ∧ ((50 : ℚ) ≠ 100) := by
  refine ⟨exT3_step, ?_, ?_, by norm_num⟩
  · simp [exS0, exT0, exT2, exT3, exEnr0, exTextItem]
  · simp +decide [exS0, exT0, exT2, exT3, exEnr0, exResp1, exTextItem,
      Store.progressOf, Store.totalContent, Store.completedContent,
      Store.courseContentIds, Store.courseModules, Store.moduleContentItems]

/-- C3, amended: when a `StudentResponse` references the content item,
`delete_content` dies with an `IntegrityError` (the ORM's nullify cascade
hits the NOT NULL foreign key) and nothing is deleted; when no response
references it, the deletion removes the item and its quiz questions, leaving
no row that references it — but recomputes nothing: every enrollment row is
exactly as before the deletion. -/
theorem deleteContent_cascade_no_recompute (s : Store) (x : Nat) :
    (∀ s', s.deleteContent x = .ok s' →
      (∀ r ∈ s'.responses, r.contentItemId ≠ x) ∧
      (∀ q ∈ s'.questions, q.contentItemId ≠ x) ∧
      (∀ c ∈ s'.contentItems, c.id ≠ x) ∧
      s'.enrollments = s.enrollments) ∧
    ((s.contentItems.find? (fun c => c.id == x)).isSome = true →
      s.responses.any (fun r => r.contentItemId == x) = true →
      s.deleteContent x = .error .integrityError) := by
  constructor
  · intro s' h
    unfold Store.deleteContent at h
    cases hf : s.contentItems.find? (fun c => c.id == x) with
    | none => rw [hf] at h; exact absurd h (by simp)
    | some item =>
        rw [hf] at h
        cases hr : s.responses.any (fun r => r.contentItemId == x) with
        | true => rw [hr] at h; exact absurd h (by simp)
        | false =>
            rw [hr] at h
            simp only [Bool.false_eq_true, if_neg] at h
            injection h with h
            subst h
            refine ⟨?_, ?_, ?_, rfl⟩
            · intro y hy
              have := List.any_eq_false.mp hr y hy
              simpa using this
            · intro y hy
              have := List.of_mem_filter hy
              simpa using this
            · intro y hy
              have := List.of_mem_filter hy
              simpa using this
  · intro hfound hr
    unfold Store.deleteContent
    cases hf : s.contentItems.find? (fun c => c.id == x) with
    | none => rw [hf] at hfound; exact absurd hfound (by simp)
    | some item => rw [hr]; simp

/-- C3 witness: the concrete deletion `exT2.deleteContent 2` (item 2 has no
responses) leaves the enrollment rows untouched, while deleting item 1 —
which the completed response `exResp1` references — fails with the
`IntegrityError` and deletes nothing. -/
theorem deleteContent_cascade_no_recompute_witness :
    exT3.enrollments = exT2.enrollments ∧
    exT2.deleteContent 1 = .error .integrityError :=
  ⟨((deleteContent_cascade_no_recompute exT2 2).1 exT3 exT3_step).2.2.2,
   (deleteContent_cascade_no_recompute exT2 1).2 (by decide) (by decide)⟩

/-! ## C5 -/

/-- C5: a submission for a quiz content item with zero questions is NOT
rejected by validation — grading runs and the computation
`score = (correct_answers / total_questions) * 10` raises an uncaught
`ZeroDivisionError` (modelled as the `zeroDivision` error outcome; the
request dies before the commit, so nothing is written). -/
theorem takeQuiz_zero_questions_zeroDivision (s : Store)
    (now st quizId respId : Nat) (answers : Nat → Option String)
    (rawForm : String) (quiz : ContentItem)
    (hfind : s.contentItems.find? (fun c => c.id == quizId) = some quiz)
    (htype : quiz.type = "quiz")
    (hpass : s.hasPassingResponse st quizId = false)
    (hzero : s.quizQuestions quizId = []) :
    s.takeQuiz now st quizId respId answers rawForm = .error .zeroDivision := by
  unfold Store.takeQuiz
  rw [hfind]
  simp [htype, hpass, hzero]

/-- C5 witness: in the reachable store `exZ1` (quiz 1 has no questions,
see `exZ1_step`), a POST submission ends in the division-by-zero error. -/
theorem takeQuiz_zero_questions_zeroDivision_witness :
    exZ1.takeQuiz 10 2 1 1 exWrong "f1" = .error .zeroDivision :=
  takeQuiz_zero_questions_zeroDivision exZ1 10 2 1 1 exWrong "f1"
    { id := 1, title := "q", type := "quiz", content := none,
      filePath := none, order := 1, moduleId := 1 }
    (by decide) rfl (by decide) (by decide)

/-! ## C6 -/

/-- C6, counterexample: the operation chain (enroll, fail the quiz twice)
reaches store `exS3`, whose recomputed progress — both the stored value and
the value `update_progress` computes — is 200, outside [0, 100]. -/
theorem progress_above_100_counterexample :
    exS0.enrollCourse 0 2 1 1 = .ok (true, exS1) ∧
    exS1.takeQuiz 10 2 1 1 exWrong "f1" = .ok (.graded 0, exS2) ∧
    exS2.takeQuiz 20 2 1 2 exWrong "f2" = .ok (.graded 0, exS3) ∧
    exS3.enrollments.map CourseEnrollment.progress = [200] ∧
    exS3.progressOf 2 1 = 200 ∧ ¬ ((200 : ℚ) ≤ 100) := by
  refine ⟨exS1_step, exS2_step, exS3_step, ?_, ?_, by norm_num⟩
  · simp [exS0, exS3, exEnr0]
  · simp +decide [exS0, exS3, exEnr0, exResp1, exResp2, Store.progressOf,
      Store.totalContent, Store.completedContent, Store.courseContentIds,
      Store.courseModules, Store.moduleContentItems]
    norm_num

/-! ## C2 -/

/-- C2, counterexample: starting from the completed enrollment of `exS2`
(progress 100), the instructor adds two content items and the student retakes
the quiz; the triggered recomputation stores `progress = 200/3 ≠ 100` yet
`completed` stays `true` and `completion_date` keeps its old stamp — the
per-submission path never reverts. -/
theorem completed_not_reverted_counterexample :
    exS2.addContent 1 2 "t" "text" (some "x") none = .ok exS2b ∧
    exS2b.addContent 1 3 "t" "text" (some "x") none = .ok exS2c ∧
    exS2c.takeQuiz 20 2 1 2 exWrong "f2" = .ok (.graded 0, exS3c) ∧
    exS3c.enrollments.map CourseEnrollment.completed = [true] ∧
    exS3c.enrollments.map CourseEnrollment.progress = [200/3] ∧
    exS3c.enrollments.map CourseEnrollment.completionDate = [some 10] ∧
    ((200 : ℚ)/3 ≠ 100) := by
  refine ⟨exS2b_step, exS2c_step, exS3c_step, ?_, ?_, ?_, by norm_num⟩ <;>
    simp [exS0, exS2, exS2b, exS2c, exS3c, exEnr0]

/-- C2, amended: `update_progress` re-evaluates only the promoting direction —
it stores the recomputed progress, turns `completed` on (never off), and
stamps `completion_date` only when the new progress is exactly 100, keeping
the old `completed`/`completion_date` otherwise; only the import-time backfill
loop re-evaluates both directions (`completed` ⇔ its recomputed progress is
100, `completion_date` cleared otherwise). -/
theorem recompute_promotes_only (s : Store) (now : Nat) (e : CourseEnrollment) :
    (updateProgressEnr s now e).progress = s.progressOf e.studentId e.courseId ∧
    (updateProgressEnr s now e).completed
      = (e.completed || (s.progressOf e.studentId e.courseId == 100)) ∧
    (updateProgressEnr s now e).completionDate
      = (if s.progressOf e.studentId e.courseId = 100 then some now
         else e.completionDate) ∧
    (backfillEnr s now e).completed = decide (backfillProgress s e = 100) ∧
    (backfillEnr s now e).completionDate
      = (if backfillProgress s e = 100 then some now else none) := by
  unfold updateProgressEnr backfillEnr
  by_cases hp : s.progressOf e.studentId e.courseId = 100 <;>
    by_cases hb : backfillProgress s e = 100 <;>
      simp [hp, hb]

/-! ## C4 -/

/-- Case analysis of the POST path of `take_quiz` on an existing quiz
content item: the blocked branch and the graded branch. -/
theorem takeQuiz_cases (s : Store) (now st quizId respId : Nat)
    (answers : Nat → Option String) (rawForm : String) (quiz : ContentItem)
    (hfind : s.contentItems.find? (fun c => c.id == quizId) = some quiz)
    (htype : quiz.type = "quiz") :
    (s.hasPassingResponse st quizId = true →
      s.takeQuiz now st quizId respId answers rawForm = .ok (.blocked, s)) ∧
    (s.hasPassingResponse st quizId = false →
      ∀ md, s.modules.find? (fun m => m.id == quiz.moduleId) = some md →
        (s.quizQuestions quizId).length ≠ 0 →
        s.takeQuiz now st quizId respId answers rawForm =
          .ok (.graded (s.quizScore quizId answers),
            ({ s with responses := s.responses ++
                [gradedResponse respId st quizId rawForm
                  (s.quizScore quizId answers) now] }).updateProgress
              now st md.courseId)) := by
  constructor
  · intro hp
    unfold Store.takeQuiz
    rw [hfind]
    simp [htype, hp]
  · intro hp md hmd hq
    unfold Store.takeQuiz
    rw [hfind]
    simp [htype, hp, hmd, hq]

/-- C4: a quiz submission is blocked — reported as such, with the store
untouched and no grading run — exactly when a prior response for the
(student, quiz) pair with score ≥ 7 exists; otherwise (for a well-formed quiz
with at least one question) it is graded and the new response row is
appended, after which the enrollment's progress is updated. -/
theorem takeQuiz_retry_policy (s : Store) (now st quizId respId : Nat)
    (answers : Nat → Option String) (rawForm : String) (quiz : ContentItem)
    (hfind : s.contentItems.find? (fun c => c.id == quizId) = some quiz)
    (htype : quiz.type = "quiz") :
    (s.hasPassingResponse st quizId = true →
      s.takeQuiz now st quizId respId answers rawForm = .ok (.blocked, s)) ∧
    (s.hasPassingResponse st quizId = false →
      ∀ md, s.modules.find? (fun m => m.id == quiz.moduleId) = some md →
        (s.quizQuestions quizId).length ≠ 0 →
        s.takeQuiz now st quizId respId answers rawForm =
          .ok (.graded (s.quizScore quizId answers),
            ({ s with responses := s.responses ++
                [gradedResponse respId st quizId rawForm
                  (s.quizScore quizId answers) now] }).updateProgress
              now st md.courseId)) :=
  takeQuiz_cases s now st quizId respId answers rawForm quiz hfind htype

/-- C4 witness: in `exP2` (a passing score-10 response exists) a retry is
blocked with the store unchanged; in `exS1` (no prior response) the
submission is graded and the response row is written. -/
theorem takeQuiz_retry_policy_witness :
    exP2.hasPassingResponse 2 1 = true ∧
    exP2.takeQuiz 20 2 1 2 exWrong "f2" = .ok (.blocked, exP2) ∧
    exS1.takeQuiz 10 2 1 1 exWrong "f1" =
      .ok (.graded (exS1.quizScore 1 exWrong),
        ({ exS1 with responses := exS1.responses ++
            [gradedResponse 1 2 1 "f1" (exS1.quizScore 1 exWrong) 10]
         }).updateProgress 10 2 1) := by
  refine ⟨by decide, ?_, ?_⟩
  · exact (takeQuiz_retry_policy exP2 20 2 1 2 exWrong "f2"
      { id := 1, title := "q", type := "quiz", content := none,
        filePath := none, order := 1, moduleId := 1 }
      (by decide) rfl).1 (by decide)
  · exact (takeQuiz_retry_policy exS1 10 2 1 1 exWrong "f1"
      { id := 1, title := "q", type := "quiz", content := none,
        filePath := none, order := 1, moduleId := 1 }
      (by decide) rfl).2 (by decide)
      { id := 1, title := "m", description := "d", order := 1, courseId := 1 }
      (by decide) (by decide)

/-! ## C7 -/

/-- C7, counterexample: on the 4-question quiz of `exC7`, the submission
`exC7Ans` has exactly 3 answers matching the correct answers under the
trim-and-case-fold normalization, yet grading returns score 5, not 7.5: the
empty submitted answer of question 1 is falsy in Python and is counted wrong
without ever being compared. -/
theorem grading_normalization_counterexample :
    (exC7.quizQuestions 1).length = 4 ∧
    specNormalizedMatchCount (exC7.quizQuestions 1) exC7Ans = 3 ∧
    exC7.takeQuiz 10 2 1 1 exC7Ans "f" = .ok (.graded 5, exC7Post) ∧
    ((5 : ℚ) ≠ 15/2) := by
  exact ⟨by decide, by decide, exC7_step, by norm_num⟩

/-- C7, amended: an answer is counted correct iff it is present, non-empty
and trim-and-case-fold-equal to the correct answer; when every submitted
answer is non-empty this agrees with the spec's pure normalized comparison,
and the returned score is `(matches / total) * 10` — in particular 3 matches
out of 4 yield 7.5. -/
theorem grading_normalized_score (s : Store) (now st quizId respId : Nat)
    (answers : Nat → Option String) (rawForm : String) (quiz : ContentItem)
    (md : Module)
    (hfind : s.contentItems.find? (fun c => c.id == quizId) = some quiz)
    (htype : quiz.type = "quiz")
    (hpass : s.hasPassingResponse st quizId = false)
    (hmd : s.modules.find? (fun m => m.id == quiz.moduleId) = some md)
    (hq : (s.quizQuestions quizId).length ≠ 0)
    (hne : ∀ q ∈ s.quizQuestions quizId, ∀ a, answers q.id = some a → a ≠ "") :
    s.takeQuiz now st quizId respId answers rawForm =
      .ok (.graded
        (((specNormalizedMatchCount (s.quizQuestions quizId) answers : ℚ) /
            ((s.quizQuestions quizId).length : ℚ)) * 10),
        ({ s with responses := s.responses ++
            [gradedResponse respId st quizId rawForm
              (s.quizScore quizId answers) now] }).updateProgress
          now st md.courseId) := by
  have hcount : gradeCount (s.quizQuestions quizId) answers
      = specNormalizedMatchCount (s.quizQuestions quizId) answers := by
    unfold gradeCount specNormalizedMatchCount
    refine List.countP_congr (fun q hqmem => ?_)
    cases ha : answers q.id with
    | none => simp
    | some a =>
        have : a ≠ "" := hne q hqmem a ha
        simp [QuizQuestion.isAnswerCorrect, this]
  have := (takeQuiz_cases s now st quizId respId answers rawForm quiz
    hfind htype).2 hpass md hmd hq
  rw [this]
  unfold Store.quizScore
  rw [hcount]

/-- C7 witness: with the four non-empty answers `exC7GoodAns` (3 normalized
matches out of 4 questions) the graded score expression is the spec's
`(3/4)*10`, i.e. 7.5. -/
theorem grading_normalized_score_witness :
    exC7.takeQuiz 10 2 1 1 exC7GoodAns "f" =
      .ok (.graded
        (((specNormalizedMatchCount (exC7.quizQuestions 1) exC7GoodAns : ℚ) /
            ((exC7.quizQuestions 1).length : ℚ)) * 10),
        ({ exC7 with responses := exC7.responses ++
            [gradedResponse 1 2 1 "f" (exC7.quizScore 1 exC7GoodAns) 10]
         }).updateProgress 10 2 1) ∧
    specNormalizedMatchCount (exC7.quizQuestions 1) exC7GoodAns = 3 ∧
    (exC7.quizQuestions 1).length = 4 ∧
    (((3 : ℚ) / 4) * 10 = 15/2) := by
  refine ⟨?_, by decide, by decide, by norm_num⟩
  exact grading_normalized_score exC7 10 2 1 1 exC7GoodAns "f"
    { id := 1, title := "q", type := "quiz", content := none,
      filePath := none, order := 1, moduleId := 1 }
    { id := 1, title := "m", description := "d", order := 1, courseId := 1 }
    (by decide) rfl (by decide) (by decide) (by decide) (by decide)

/-! ## C9 -/

/-- C9: enrolling in an existing course when no enrollment row for the pair
exists creates exactly one row (`created = true`); a second request for the
same pair is a no-op: it reports `created = false`, writes nothing, and the
single existing row keeps all its fields. -/
theorem enroll_twice_single_row (s : Store) (now₁ now₂ st c id₁ id₂ : Nat)
    (course : Course)
    (hc : s.courses.find? (fun co => co.id == c) = some course)
    (h0 : enrollmentCountFor s st c = 0) :
    s.enrollCourse now₁ st c id₁ =
      .ok (true, { s with enrollments :=
        s.enrollments ++ [newEnrollment now₁ st c id₁] }) ∧
    enrollmentCountFor
      { s with enrollments := s.enrollments ++ [newEnrollment now₁ st c id₁] } st c
      = 1 ∧
    Store.enrollCourse
      { s with enrollments := s.enrollments ++ [newEnrollment now₁ st c id₁] }
      now₂ st c id₂ =
      .ok (false, { s with enrollments :=
        s.enrollments ++ [newEnrollment now₁ st c id₁] }) := by
  have hnil : s.enrollments.filter (fun e =>
      e.studentId == st && e.courseId == c) = [] := by
    have := h0
    unfold enrollmentCountFor at this
    exact List.length_eq_zero.mp this
  have hfnone : s.enrollments.find? (fun e =>
      e.studentId == st && e.courseId == c) = none := by
    rw [List.find?_eq_none]
    intro e he
    have := List.filter_eq_nil_iff.mp hnil e he
    simpa using this
  refine ⟨?_, ?_, ?_⟩
  · unfold Store.enrollCourse
    rw [hc, hfnone]
  · unfold enrollmentCountFor
    simp [List.filter_append, hnil, newEnrollment]
  · unfold Store.enrollCourse
    rw [show ({ s with enrollments :=
        s.enrollments ++ [newEnrollment now₁ st c id₁] } : Store).courses
      = s.courses from rfl, hc]
    rw [show ({ s with enrollments :=
        s.enrollments ++ [newEnrollment now₁ st c id₁] } : Store).enrollments
      = s.enrollments ++ [newEnrollment now₁ st c id₁] from rfl]
    rw [List.find?_append, hfnone]
    simp [newEnrollment]

/-- C9 witness: student 2 enrolling twice in course 1 of `exS0`: the first
call creates the single row, the second is a no-op on the same store. -/
theorem enroll_twice_single_row_witness :
    exS0.enrollCourse 0 2 1 1 =
      .ok (true, { exS0 with enrollments :=
        exS0.enrollments ++ [newEnrollment 0 2 1 1] }) ∧
    enrollmentCountFor
      { exS0 with enrollments := exS0.enrollments ++ [newEnrollment 0 2 1 1] } 2 1
      = 1 ∧
    Store.enrollCourse
      { exS0 with enrollments := exS0.enrollments ++ [newEnrollment 0 2 1 1] }
      5 2 1 9 =
      .ok (false, { exS0 with enrollments :=
        exS0.enrollments ++ [newEnrollment 0 2 1 1] }) :=
  enroll_twice_single_row exS0 0 5 2 1 1 9
    { id := 1, name := "c", description := "d", instructorId := 1 }
    (by decide) (by decide)

/-! ## C10 -/

/-- Progress recomputation only rewrites enrollment rows; every other table
is untouched. -/
theorem updateProgress_fields (s : Store) (n a b : Nat) :
    (s.updateProgress n a b).courses = s.courses ∧
    (s.updateProgress n a b).modules = s.modules ∧
    (s.updateProgress n a b).contentItems = s.contentItems ∧
    (s.updateProgress n a b).questions = s.questions ∧
    (s.updateProgress n a b).responses = s.responses := by
  unfold Store.updateProgress
  split <;> exact ⟨rfl, rfl, rfl, rfl, rfl⟩

/-- C10: every submission that is not blocked (and reaches grading) writes a
response row with `completed = True` and a non-null `completion_date`, with
no condition on the score; the row's content item is among the course's
content items, so the next `completed_content` count rises by exactly 1 —
the item counts as completed even for a failing score. -/
theorem takeQuiz_completes_regardless_of_score (s : Store)
    (now st quizId respId : Nat) (answers : Nat → Option String)
    (rawForm : String) (quiz : ContentItem) (md : Module)
    (hfind : s.contentItems.find? (fun c => c.id == quizId) = some quiz)
    (htype : quiz.type = "quiz")
    (hpass : s.hasPassingResponse st quizId = false)
    (hmd : s.modules.find? (fun m => m.id == quiz.moduleId) = some md)
    (hq : (s.quizQuestions quizId).length ≠ 0) :
    s.takeQuiz now st quizId respId answers rawForm =
      .ok (.graded (s.quizScore quizId answers),
        ({ s with responses := s.responses ++
            [gradedResponse respId st quizId rawForm
              (s.quizScore quizId answers) now] }).updateProgress
          now st md.courseId) ∧
    (gradedResponse respId st quizId rawForm (s.quizScore quizId answers) now).completed
      = true ∧
    (gradedResponse respId st quizId rawForm (s.quizScore quizId answers) now).completionDate
      = some now ∧
    (({ s with responses := s.responses ++
        [gradedResponse respId st quizId rawForm
          (s.quizScore quizId answers) now] }).updateProgress
        now st md.courseId).responses
      = s.responses ++
        [gradedResponse respId st quizId rawForm (s.quizScore quizId answers) now] ∧
    Store.completedContent
      (({ s with responses := s.responses ++
          [gradedResponse respId st quizId rawForm
            (s.quizScore quizId answers) now] }).updateProgress
          now st md.courseId) st md.courseId
      = s.completedContent st md.courseId + 1 := by
  have hqz : quiz.id = quizId := by
    have := List.find?_some hfind
    simpa using this
  have hquizmem : quiz ∈ s.contentItems := List.mem_of_find?_eq_some hfind
  have hmdid : md.id = quiz.moduleId := by
    have := List.find?_some hmd
    simpa using this
  have hmdmem : md ∈ s.modules := List.mem_of_find?_eq_some hmd
  have hidmem : quizId ∈ s.courseContentIds md.courseId := by
    unfold Store.courseContentIds Store.courseModules Store.moduleContentItems
    rw [List.mem_flatMap]
    refine ⟨md, List.mem_filter.mpr ⟨hmdmem, by simp⟩, ?_⟩
    rw [List.mem_map]
    exact ⟨quiz, List.mem_filter.mpr ⟨hquizmem, by simp [hmdid]⟩, hqz⟩
  refine ⟨(takeQuiz_cases s now st quizId respId answers rawForm quiz
      hfind htype).2 hpass md hmd hq, rfl, rfl,
    ((updateProgress_fields _ now st md.courseId).2.2.2.2), ?_⟩
  rw [completedContent_ext _
      ({ s with responses := s.responses ++
        [gradedResponse respId st quizId rawForm (s.quizScore quizId answers) now] })
      st md.courseId
      ((updateProgress_fields _ now st md.courseId).2.2.2.2)
      ((updateProgress_fields _ now st md.courseId).2.1)
      ((updateProgress_fields _ now st md.courseId).2.2.1)]
  exact completedContent_append s st md.courseId _ rfl rfl hidmem

/-- C10 witness: the failing submission on `exS1` (score 0 < 7) still writes
a completed, dated response row and bumps `completed_content` from 0 to 1. -/
theorem takeQuiz_completes_regardless_witness :
    (gradedResponse 1 2 1 "f1" (exS1.quizScore 1 exWrong) 10).completed = true ∧
    Store.completedContent
      (({ exS1 with responses := exS1.responses ++
          [gradedResponse 1 2 1 "f1" (exS1.quizScore 1 exWrong) 10] }).updateProgress
          10 2 1) 2 1
      = exS1.completedContent 2 1 + 1 := by
  have h := takeQuiz_completes_regardless_of_score exS1 10 2 1 1 exWrong "f1"
    { id := 1, title := "q", type := "quiz", content := none,
      filePath := none, order := 1, moduleId := 1 }
    { id := 1, title := "m", description := "d", order := 1, courseId := 1 }
    (by decide) rfl (by decide) (by decide) (by decide)
  exact ⟨h.2.1, h.2.2.2.2⟩

/-! ## C6, amended part -/

/-- If every key of `ids` is hit at most once by `f` on `l`, and every
element of `l` maps into `ids`, then `l` is no longer than `ids`. -/
theorem length_le_of_unique_keys {α β : Type} [DecidableEq β] (ids : List β) :
    ∀ (l : List α) (f : α → β),
      (∀ x ∈ l, f x ∈ ids) →
      (∀ b ∈ ids, (l.filter (fun x => f x == b)).length ≤ 1) →
      l.length ≤ ids.length := by
  induction ids with
  | nil =>
      intro l f hmem _
      cases l with
      | nil => simp
      | cons x xs => exact absurd (hmem x (by simp)) (by simp)
  | cons b ids ih =>
      intro l f hmem hone
      have hsplit : l.length
          = (l.filter (fun x => f x == b)).length
            + (l.filter (fun x => !(f x == b))).length := by
        rw [← List.countP_eq_length_filter, ← List.countP_eq_length_filter]
        have h := List.length_eq_countP_add_countP (fun x => f x == b) l
        simpa using h
      have h1 : (l.filter (fun x => f x == b)).length ≤ 1 := hone b (by simp)
      have h2 : (l.filter (fun x => !(f x == b))).length ≤ ids.length := by
        apply ih
        · intro x hx
          have hxl : x ∈ l := (List.mem_filter.mp hx).1
          have hxb : ¬ f x = b := by
            have := (List.mem_filter.mp hx).2
            simpa using this
          rcases List.mem_cons.mp (hmem x hxl) with h | h
          · exact absurd h hxb
          · exact h
        · intro b' hb'
          calc ((l.filter (fun x => !(f x == b))).filter (fun x => f x == b')).length
              ≤ (l.filter (fun x => f x == b')).length :=
                List.Sublist.length_le (List.Sublist.filter _ (List.filter_sublist l))
            _ ≤ 1 := hone b' (by simp [hb'])
      have hc : (b :: ids).length = ids.length + 1 := rfl
      omega

/-- The course's content-item id list has exactly `total_content` entries. -/
theorem length_courseContentIds (s : Store) (c : Nat) :
    (s.courseContentIds c).length = s.totalContent c := by
  simp [Store.courseContentIds, Store.totalContent, List.length_flatMap,
    Function.comp_def]

/-- When the student has at most one completed response row per content item
of the course, the `completed_content` count is bounded by `total_content`. -/
theorem completedContent_le_totalContent (s : Store) (st c : Nat)
    (hdedup : ∀ cid ∈ s.courseContentIds c,
      (s.responses.filter (fun r =>
        r.studentId == st && r.completed && r.contentItemId == cid)).length ≤ 1) :
    s.completedContent st c ≤ s.totalContent c := by
  rw [← length_courseContentIds]
  unfold Store.completedContent
  apply length_le_of_unique_keys (s.courseContentIds c) _
    (fun r => r.contentItemId)
  · intro r hr
    have := (List.mem_filter.mp hr).2
    simp only [Bool.and_eq_true] at this
    simpa using this.2
  · intro b hb
    calc ((s.responses.filter (fun r =>
            r.studentId == st && r.completed &&
              (s.courseContentIds c).contains r.contentItemId)).filter
          (fun r => r.contentItemId == b)).length
        ≤ (s.responses.filter (fun r =>
            r.studentId == st && r.completed && r.contentItemId == b)).length := by
          rw [← List.countP_eq_length_filter, ← List.countP_eq_length_filter,
            List.countP_filter]
          apply List.countP_mono_left
          intro r _ hr
          simp only [Bool.and_eq_true] at hr ⊢
          exact ⟨⟨hr.2.1.1, hr.2.1.2⟩, hr.1⟩
      _ ≤ 1 := hdedup b hb

/-- C6, amended: the recomputed progress is always ≥ 0 and equals 0 for a
course with zero content items (no division happens); it is ≤ 100 whenever
the student has at most one completed response row per content item, but —
per the counterexample — can exceed 100 when duplicate completed rows exist. -/
theorem progress_nonneg_zero_and_conditional_bound (s : Store) (st c : Nat) :
    0 ≤ s.progressOf st c ∧
    (s.totalContent c = 0 → s.progressOf st c = 0) ∧
    ((∀ cid ∈ s.courseContentIds c,
        (s.responses.filter (fun r =>
          r.studentId == st && r.completed && r.contentItemId == cid)).length ≤ 1) →
      s.progressOf st c ≤ 100) := by
  refine ⟨?_, ?_, ?_⟩
  · unfold Store.progressOf
    by_cases h : 0 < s.totalContent c
    · simp only [h, if_pos]
      positivity
    · simp [h]
  · intro h0
    unfold Store.progressOf
    simp [h0]
  · intro hd
    unfold Store.progressOf
    by_cases h : 0 < s.totalContent c
    · simp only [h, if_pos]
      have hle : s.completedContent st c ≤ s.totalContent c :=
        completedContent_le_totalContent s st c hd
      have hbpos : (0 : ℚ) < (s.totalContent c : ℚ) := by exact_mod_cast h
      rw [div_mul_eq_mul_div, div_le_iff₀ hbpos]
      calc (s.completedContent st c : ℚ) * 100
          ≤ (s.totalContent c : ℚ) * 100 := by
            apply mul_le_mul_of_nonneg_right _ (by norm_num)
            exact_mod_cast hle
        _ = 100 * (s.totalContent c : ℚ) := by ring
    · simp [h]

/-- C6 witness: on the deduplicated store `exS2` (one completed row) the
bound applies and yields progress ≤ 100. -/
theorem progress_conditional_bound_witness : exS2.progressOf 2 1 ≤ 100 :=
  (progress_nonneg_zero_and_conditional_bound exS2 2 1).2.2 (by decide)

/-! ## C8 -/

/-- Recomputation `update_progress` never changes the row's identifiers. -/
theorem updateProgressEnr_ids (s : Store) (n : Nat) (e : CourseEnrollment) :
    (updateProgressEnr s n e).id = e.id ∧
    (updateProgressEnr s n e).studentId = e.studentId ∧
    (updateProgressEnr s n e).courseId = e.courseId := by
  by_cases h : s.progressOf e.studentId e.courseId = 100 <;>
    simp [updateProgressEnr, h]

/-- Recomputing an enrollment row twice against stores that agree on the
recomputed progress: `progress` and `completed` are stable; the whole row is
stable when the second recomputation carries the same timestamp (otherwise
`completion_date` is re-stamped in the 100% case). -/
theorem updateProgressEnr_twice (s s' : Store) (n₁ n₂ : Nat) (e : CourseEnrollment)
    (hinv : ∀ a b, s'.progressOf a b = s.progressOf a b) :
    (updateProgressEnr s' n₂ (updateProgressEnr s n₁ e)).progress
        = (updateProgressEnr s n₁ e).progress ∧
    (updateProgressEnr s' n₂ (updateProgressEnr s n₁ e)).completed
        = (updateProgressEnr s n₁ e).completed ∧
    updateProgressEnr s' n₁ (updateProgressEnr s n₁ e) = updateProgressEnr s n₁ e := by
  by_cases hp : s.progressOf e.studentId e.courseId = 100 <;>
    simp [updateProgressEnr, hinv, hp]

/-- Applying the committed-row map a second time, against any store that
holds the once-updated table and computes the same progress values:
`progress` and `completed` are unchanged, and the whole table is unchanged
when the second timestamp equals the first. -/
theorem updMap_twice (s s' : Store) (n₁ n₂ : Nat) (e₀ : CourseEnrollment)
    (hs' : s'.enrollments = updMap s n₁ e₀)
    (hinv : ∀ a b, s'.progressOf a b = s.progressOf a b) :
    (updMap s' n₂ (updateProgressEnr s n₁ e₀)).map (fun e => (e.progress, e.completed))
      = (updMap s n₁ e₀).map (fun e => (e.progress, e.completed)) ∧
    (n₂ = n₁ → updMap s' n₂ (updateProgressEnr s n₁ e₀) = updMap s n₁ e₀) := by
  have hid₀ : (updateProgressEnr s n₁ e₀).id = e₀.id := (updateProgressEnr_ids s n₁ e₀).1
  have hpoint : ∀ (m : Nat) (e' : CourseEnrollment),
      (if (if e'.id == e₀.id then updateProgressEnr s n₁ e' else e').id
          == (updateProgressEnr s n₁ e₀).id then
        updateProgressEnr s' m (if e'.id == e₀.id then updateProgressEnr s n₁ e' else e')
      else (if e'.id == e₀.id then updateProgressEnr s n₁ e' else e'))
      = (if e'.id == e₀.id then updateProgressEnr s' m (updateProgressEnr s n₁ e') else e') := by
    intro m e'
    have hidq : ((updateProgressEnr s n₁ e').id == (updateProgressEnr s n₁ e₀).id)
        = (e'.id == e₀.id) := by
      rw [(updateProgressEnr_ids s n₁ e').1, hid₀]
    cases he : (e'.id == e₀.id) with
    | true => simp [he, hidq]
    | false => simp [he, hidq, hid₀]
  constructor
  · unfold updMap
    rw [hs']
    unfold updMap
    rw [List.map_map, List.map_map, List.map_map]
    apply List.map_congr_left
    intro e' _
    dsimp only [Function.comp]
    rw [hpoint n₂ e']
    cases he : (e'.id == e₀.id) with
    | true =>
        simp only [he, if_true]
        have htw := updateProgressEnr_twice s s' n₁ n₂ e' hinv
        rw [htw.1, htw.2.1]
    | false => simp [he]
  · intro hn
    subst hn
    unfold updMap
    rw [hs']
    unfold updMap
    rw [List.map_map]
    apply List.map_congr_left
    intro e' _
    dsimp only [Function.comp]
    rw [hpoint n₂ e']
    cases he : (e'.id == e₀.id) with
    | true =>
        simp only [he, if_true]
        exact (updateProgressEnr_twice s s' n₂ n₂ e' hinv).2.2
    | false => simp [he]

/-- C8, amended: running `update_progress` twice in succession is idempotent
in `progress` and `completed` for any pair of timestamps, and idempotent in
the whole store when the clock has not advanced; only `completion_date` of a
100%-progress enrollment moves (to the later timestamp, see the
counterexample). -/
theorem updateProgress_idempotent (s : Store) (n₁ n₂ st c : Nat) :
    ((s.updateProgress n₁ st c).updateProgress n₂ st c).enrollments.map
        (fun e => (e.progress, e.completed))
      = (s.updateProgress n₁ st c).enrollments.map (fun e => (e.progress, e.completed)) ∧
    (s.updateProgress n₁ st c).updateProgress n₁ st c = s.updateProgress n₁ st c := by
  cases h : s.enrollments.find? (fun e => e.studentId == st && e.courseId == c) with
  | none =>
      have h1 : s.updateProgress n₁ st c = s := by
        unfold Store.updateProgress
        rw [h]
      have h2 : s.updateProgress n₂ st c = s := by
        unfold Store.updateProgress
        rw [h]
      rw [h1, h2, h1]
      exact ⟨rfl, rfl⟩
  | some e₀ =>
      have h1 : s.updateProgress n₁ st c = { s with enrollments := updMap s n₁ e₀ } := by
        unfold Store.updateProgress
        rw [h]
      have hup : ∀ e : CourseEnrollment,
          ((updateProgressEnr s n₁ e).studentId == st
            && (updateProgressEnr s n₁ e).courseId == c)
          = (e.studentId == st && e.courseId == c) := by
        intro e
        rw [(updateProgressEnr_ids s n₁ e).2.1, (updateProgressEnr_ids s n₁ e).2.2]
      have hfind₁ : (updMap s n₁ e₀).find? (fun e => e.studentId == st && e.courseId == c)
          = some (updateProgressEnr s n₁ e₀) := by
        unfold updMap
        rw [List.find?_map]
        have hcomp : ((fun e : CourseEnrollment => e.studentId == st && e.courseId == c) ∘
            (fun e => if e.id == e₀.id then updateProgressEnr s n₁ e else e))
            = (fun e : CourseEnrollment => e.studentId == st && e.courseId == c) := by
          funext e
          by_cases he : (e.id == e₀.id) = true <;> simp [Function.comp, he, hup e]
        rw [hcomp, h]
        simp
      have hinv₁ : ∀ a b,
          Store.progressOf { s with enrollments := updMap s n₁ e₀ } a b = s.progressOf a b :=
        fun _ _ => rfl
      have h2 : ∀ m : Nat,
          Store.updateProgress { s with enrollments := updMap s n₁ e₀ } m st c
          = { s with enrollments := updMap ({ s with enrollments := updMap s n₁ e₀ }) m (updateProgressEnr s n₁ e₀) } := by
        intro m
        unfold Store.updateProgress
        rw [show ({ s with enrollments := updMap s n₁ e₀ } : Store).enrollments
          = updMap s n₁ e₀ from rfl, hfind₁]
      have htw := updMap_twice s ({ s with enrollments := updMap s n₁ e₀ }) n₁ n₂ e₀ rfl hinv₁
      have htw₁ := updMap_twice s ({ s with enrollments := updMap s n₁ e₀ }) n₁ n₁ e₀ rfl hinv₁
      constructor
      · have e1 : ((s.updateProgress n₁ st c).updateProgress n₂ st c).enrollments
            = updMap ({ s with enrollments := updMap s n₁ e₀ }) n₂ (updateProgressEnr s n₁ e₀) := by
          rw [h1, h2 n₂]
        have e2 : (s.updateProgress n₁ st c).enrollments = updMap s n₁ e₀ := by
          rw [h1]
        rw [e1, e2]
        exact htw.1
      · rw [h1, h2 n₁]
        rw [htw₁.2 rfl]

/-- C8, counterexample: on the completed enrollment of `exS2` (progress 100),
recomputing at time 30 stamps `completion_date = 30`; recomputing again at
time 40 with no intervening writes re-stamps it to 40 — the second run does
not leave the enrollment identical to the first. -/
theorem recompute_restamps_date_counterexample :
    (exS2.updateProgress 30 2 1).enrollments.map CourseEnrollment.completionDate
      = [some 30] ∧
    ((exS2.updateProgress 30 2 1).updateProgress 40 2 1).enrollments.map
      CourseEnrollment.completionDate = [some 40] ∧
    (some 40 : Option Nat) ≠ some 30 := by
  refine ⟨?_, ?_, by decide⟩ <;>
    · simp +decide [exS0, exS2, exEnr0, exResp1, Store.updateProgress, updMap,
        updateProgressEnr, Store.progressOf, Store.totalContent,
        Store.completedContent, Store.courseContentIds, Store.courseModules,
        Store.moduleContentItems]

end ELearning
